import Mathlib

set_option maxHeartbeats 1000000

/-!
Shallow embedding of the Ultrahuman Home Assistant integration
(custom_components/ultrahuman: parser.py and sensor.py) and proofs about it.

Python values that can appear in a parsed JSON payload are embedded as `JVal`
(with `JVal.null` doubling as Python `None`, since JSON `null` parses to
`None`).  Python code that can raise is embedded in `Except PyErr`; each
`PyErr` constructor names the Python exception class the corresponding
operation raises.  The `datetime`/`zoneinfo` library is embedded relative to
an explicit environment `PyEnv` carrying the IANA zone database (zone name to
UTC-offset-seconds at a given instant) and the platform local zone used by
zone-naive `datetime.fromtimestamp`.
-/

/-- A Python value in a parsed JSON payload; `null` doubles as Python `None`. -/
inductive JVal where
  | null : JVal
  | bool : Bool → JVal
  | num : Int → JVal
  | str : String → JVal
  | list : List JVal → JVal
  | obj : List (String × JVal) → JVal

/-- The Python exception classes the embedded code paths can raise. -/
inductive PyErr where
  | attributeError : PyErr
  | typeError : PyErr
  | zoneInfoNotFoundError : PyErr
  | valueError : PyErr
  deriving DecidableEq

/-- Python truthiness (`bool(x)`) for embedded values. -/
def truthy : JVal → Bool
  | .null => false
  | .bool b => b
  | .num n => n != 0
  | .str s => s != ""
  | .list xs => !xs.isEmpty
  | .obj kvs => !kvs.isEmpty

/-- Python identity test `x is None`. -/
def isNone : JVal → Bool
  | .null => true
  | _ => false

/-- Python `d.get(k)`: `None` when the key is missing, the stored value
otherwise; `AttributeError` when `d` is not a dict. -/
def pyGet : JVal → String → Except PyErr JVal
  | .obj kvs, k => .ok ((kvs.lookup k).getD .null)
  | _, _ => .error .attributeError

/-- Python `d.get(k, default)`: the default only when the key is missing (a
key present with `None` yields `None`, not the default). -/
def pyGetD : JVal → String → JVal → Except PyErr JVal
  | .obj kvs, k, d => .ok ((kvs.lookup k).getD d)
  | _, _, _ => .error .attributeError

/-- Python `d.get(key, default)` where the key is itself a runtime value:
payload dicts are string-keyed, so any non-string (hashable) key is absent. -/
def pyGetKeyD : JVal → JVal → JVal → Except PyErr JVal
  | .obj kvs, .str k, d => .ok ((kvs.lookup k).getD d)
  | .obj _, _, d => .ok d
  | _, _, _ => .error .attributeError

/-- Python iteration `for m in x`, as the list of yielded items (dicts yield
their keys, strings their characters); `TypeError` on non-iterables. -/
def iterItems : JVal → Except PyErr (List JVal)
  | .list xs => .ok xs
  | .obj kvs => .ok (kvs.map fun kv => .str kv.1)
  | .str s => .ok (s.data.map fun c => .str (String.mk [c]))
  | _ => .error .typeError

/-- Python `next(iter(x), None)`. -/
def pyFirst (v : JVal) : Except PyErr JVal := do
  let items ← iterItems v
  pure (match items with | [] => .null | x :: _ => x)

/-- One step of the record-scan generator filter:
Python `m.get("type") == metric_type` (comparing a payload value with a
string literal; unequal types compare unequal, never raise). -/
def typeMatches (m : JVal) (t : String) : Except PyErr Bool :=
  match m with
  | .obj kvs =>
      .ok (match (kvs.lookup "type").getD .null with
           | .str s => s == t
           | _ => false)
  | _ => .error .attributeError

/-- First record whose `type` tag equals `t`, else `None`
(`next((m for m in items if m.get("type") == t), None)`). -/
def firstMatch (t : String) : List JVal → Except PyErr JVal
  | [] => .ok .null
  | m :: rest => do
      let b ← typeMatches m t
      if b then pure m else firstMatch t rest

/-- Embeds `UltrahumanDataParser._get_metric` (parser.py:65-69), which is
also the record scan inlined in `UltrahumanSensor.native_value`
(sensor.py:131-134). -/
def get_metric (metrics : JVal) (t : String) : Except PyErr JVal := do
  let items ← iterItems metrics
  firstMatch t items

/-- Embeds `UltrahumanDataParser._obj` (parser.py:71-73):
`metric.get("object", {}) if metric else {}`. -/
def get_obj (metrics : JVal) (t : String) : Except PyErr JVal := do
  let m ← get_metric metrics t
  if truthy m then pyGetD m "object" (.obj []) else pure (.obj [])

/-- External world for the `datetime`/`zoneinfo` library: the IANA zone
database (zone name ↦ UTC-offset-seconds as a function of the epoch instant)
and the platform local zone used by zone-naive `fromtimestamp`. -/
structure PyEnv where
  zones : String → Option (Int → Int)
  localOff : Int → Int

/-- Smallest local-time second representable by `datetime`
(0001-01-01 00:00:00). -/
def minDatetimeSec : Int := -62135596800

/-- Largest local-time second representable by `datetime`
(9999-12-31 23:59:59). -/
def maxDatetimeSec : Int := 253402300799

/-- Gregorian (year, month, day) from a count of days since 1970-01-01,
by the standard floor-division civil-from-days computation. -/
def civilFromDays (z0 : Int) : Int × Int × Int :=
  let z := z0 + 719468
  let era := z / 146097
  let doe := z - era * 146097
  let yoe := (doe - doe / 1460 + doe / 36524 - doe / 146096) / 365
  let y := yoe + era * 400
  let doy := doe - (365 * yoe + yoe / 4 - yoe / 100)
  let mp := (5 * doy + 2) / 153
  let d := doy - (153 * mp + 2) / 5 + 1
  let m := mp + (if mp < 10 then 3 else -9)
  (y + (if m ≤ 2 then 1 else 0), m, d)

/-- Two-digit zero-padded rendering of a small nonnegative integer. -/
def pad2 (n : Int) : String :=
  (if n < 10 then "0" else "") ++ toString n

/-- Four-digit zero-padded rendering of a year in 1..9999. -/
def pad4 (y : Int) : String :=
  if y < 10 then "000" ++ toString y
  else if y < 100 then "00" ++ toString y
  else if y < 1000 then "0" ++ toString y
  else toString y

/-- `datetime.isoformat()` of the instant whose local wall-clock time is
`localSec` seconds from the epoch: with a `+HH:MM`/`-HH:MM` offset suffix for
an aware datetime (`off = some o`), without one for a naive datetime. -/
def isoRender (localSec : Int) (off : Option Int) : String :=
  let days := localSec / 86400
  let sod := localSec % 86400
  let ymd := civilFromDays days
  let base :=
    pad4 ymd.1 ++ "-" ++ pad2 ymd.2.1 ++ "-" ++ pad2 ymd.2.2 ++ "T" ++
    pad2 (sod / 3600) ++ ":" ++ pad2 (sod % 3600 / 60) ++ ":" ++ pad2 (sod % 60)
  match off with
  | none => base
  | some o =>
      let sign := if o < 0 then "-" else "+"
      let a : Int := (o.natAbs : Int)
      base ++ sign ++ pad2 (a / 3600) ++ ":" ++ pad2 (a % 3600 / 60)

/-- Embeds the expression
`datetime.fromtimestamp(ts, tz=ZoneInfo(tz) if tz else None).isoformat()`
over the zone database `env`.  `ZoneInfo` raises `ZoneInfoNotFoundError` for
an unknown zone name and `TypeError` for a non-string argument;
`fromtimestamp` raises `TypeError` for a non-numeric timestamp and a
`ValueError`-class error when the local time falls outside `datetime`'s
range. -/
def fromtimestampIso (env : PyEnv) (tz ts : JVal) : Except PyErr JVal := do
  let zinfo : Option (Int → Int) ←
    if truthy tz then
      match tz with
      | .str s =>
          match env.zones s with
          | some f => pure (some f)
          | none => .error .zoneInfoNotFoundError
      | _ => .error .typeError
    else pure none
  let n : Int ←
    match ts with
    | .num n => pure n
    | .bool b => pure (if b then 1 else 0)
    | _ => .error .typeError
  let off : Int := match zinfo with | some f => f n | none => env.localOff n
  let localSec := n + off
  if localSec < minDatetimeSec ∨ localSec > maxDatetimeSec then
    .error .valueError
  else
    match zinfo with
    | some f => pure (.str (isoRender localSec (some (f n))))
    | none => pure (.str (isoRender localSec none))

/-- Embeds `UltrahumanDataParser._iso` (parser.py:75-81).  Note the source
has no try/except here: conversion errors propagate. -/
def _iso (env : PyEnv) (tz ts : JVal) : Except PyErr JVal :=
  if !truthy ts then .ok .null
  else fromtimestampIso env tz ts

/-- Embeds the metric registry dataclass (parser.py:10-13). -/
structure UltrahumanMetric where
  key : String
  name : String
  deriving DecidableEq

/-- Embeds the registry `METRICS` (parser.py:17-49), in source order. -/
def METRICS : List UltrahumanMetric := [
  ⟨"hr_last", "Heart Rate"⟩,
  ⟨"night_rhr", "Night Resting HR"⟩,
  ⟨"hrv_avg", "HRV"⟩,
  ⟨"sleep_rhr", "Sleep RHR"⟩,
  ⟨"spo2_avg", "SpO2"⟩,
  ⟨"vo2_max", "VO2 Max"⟩,
  ⟨"sleep_score", "Sleep Score"⟩,
  ⟨"total_sleep", "Total Sleep"⟩,
  ⟨"sleep_start", "Sleep Start"⟩,
  ⟨"sleep_end", "Sleep End"⟩,
  ⟨"time_in_bed", "Time in Bed"⟩,
  ⟨"sleep_efficiency", "Sleep Efficiency"⟩,
  ⟨"recovery_index", "Recovery Index"⟩,
  ⟨"movement_index", "Movement Index"⟩,
  ⟨"active_minutes", "Active Minutes"⟩,
  ⟨"steps", "Steps"⟩,
  ⟨"calories", "Calories Burned"⟩,
  ⟨"skin_temp", "Skin Temperature"⟩,
  ⟨"temp_deviation", "Temperature Deviation"⟩,
  ⟨"stress_score", "Stress Score"⟩,
  ⟨"readiness_score", "Readiness Score"⟩,
  ⟨"body_battery", "Body Battery"⟩]

/-- The engine state set up by `UltrahumanDataParser.__init__`
(parser.py:55-61): the raw payload and the eagerly resolved time zone,
day-key and day record list. -/
structure UltrahumanDataParser where
  raw : JVal
  tz : JVal
  day_key : JVal
  metrics : JVal

/-- Embeds `UltrahumanDataParser.__init__` (parser.py:55-61); the
constructor itself can raise on a sufficiently malformed payload, hence the
`Except`. -/
def mkParser (raw : JVal) : Except PyErr UltrahumanDataParser := do
  let tz ← pyGet raw "latest_time_zone"
  let metricsByDay ← pyGetD raw "metrics" (.obj [])
  let dayKey ← pyFirst metricsByDay
  let metrics ←
    if truthy dayKey then pyGetKeyD metricsByDay dayKey (.list [])
    else pure (.list [])
  pure ⟨raw, tz, dayKey, metrics⟩

/-- Embeds the body of `UltrahumanDataParser.get_value` (parser.py:85-159)
as a function of the two attributes the method reads (`self._tz`,
`self._metrics`).  The branch order, the record-type tags, the field paths
and the unconditional `sleep = self._obj("sleep")` line between the cardio
and sleep sections are taken verbatim from the source. -/
def get_value_core (env : PyEnv) (tz ms : JVal) (key : String) :
    Except PyErr JVal :=
  if key = "hr_last" then do
    let o ← get_obj ms "hr"; pyGet o "last_reading"
  else if key = "night_rhr" then do
    let o ← get_obj ms "night_rhr"; pyGet o "avg"
  else if key = "hrv_avg" then do
    let o ← get_obj ms "avg_sleep_hrv"; pyGet o "value"
  else if key = "sleep_rhr" then do
    let o ← get_obj ms "sleep_rhr"; pyGet o "value"
  else if key = "spo2_avg" then do
    let o ← get_obj ms "spo2"; pyGet o "avg"
  else if key = "vo2_max" then do
    let o ← get_obj ms "vo2_max"; pyGet o "value"
  else do
    let sleep ← get_obj ms "sleep"
    if key = "sleep_score" then do
      let x ← pyGetD sleep "sleep_score" (.obj []); pyGet x "score"
    else if key = "total_sleep" then do
      let x ← pyGetD sleep "total_sleep" (.obj []); pyGet x "minutes"
    else if key = "sleep_start" then do
      let ts ← pyGet sleep "bedtime_start"; _iso env tz ts
    else if key = "sleep_end" then do
      let ts ← pyGet sleep "bedtime_end"; _iso env tz ts
    else if key = "time_in_bed" then do
      let x ← pyGetD sleep "time_in_bed" (.obj []); pyGet x "minutes"
    else if key = "sleep_efficiency" then
      pyGet sleep "sleep_efficiency"
    else if key = "recovery_index" then do
      let o ← get_obj ms "recovery_index"; pyGet o "value"
    else if key = "movement_index" then do
      let o ← get_obj ms "movement_index"; pyGet o "value"
    else if key = "active_minutes" then do
      let o ← get_obj ms "active_minutes"; pyGet o "value"
    else if key = "steps" then do
      let o ← get_obj ms "steps"; pyGet o "total"
    else if key = "calories" then do
      let o ← get_obj ms "calories"; pyGet o "total"
    else if key = "skin_temp" then do
      let o ← get_obj ms "skin_temperature"; pyGet o "avg"
    else if key = "temp_deviation" then do
      let o ← get_obj ms "skin_temperature"; pyGet o "deviation"
    else if key = "stress_score" then do
      let o ← get_obj ms "stress"; pyGet o "score"
    else if key = "readiness_score" then do
      let o ← get_obj ms "readiness"; pyGet o "score"
    else if key = "body_battery" then do
      let o ← get_obj ms "body_battery"; pyGet o "value"
    else pure .null

/-- Embeds `UltrahumanDataParser.get_value` (parser.py:85-159): the method
reads only `self._tz` and `self._metrics`. -/
def get_value (env : PyEnv) (p : UltrahumanDataParser) (key : String) :
    Except PyErr JVal :=
  get_value_core env p.tz p.metrics key

/-- The `get_value` method as a state-passing call: the source method
performs no attribute writes, so the post-call engine state is the pre-call
state. -/
def get_value_call (env : PyEnv) (p : UltrahumanDataParser) (key : String) :
    Except PyErr (JVal × UltrahumanDataParser) :=
  match get_value env p key with
  | .ok v => .ok (v, p)
  | .error e => .error e

/-- One row of the legacy sensor table `SENSORS` (sensor.py:27-37):
(name, metric_type, value_key, is_timestamp). -/
structure SensorSpec where
  name : String
  metric_type : String
  value_key : String
  is_timestamp : Bool
  deriving DecidableEq

/-- Embeds `SENSORS` (sensor.py:27-37), in source order. -/
def SENSORS : List SensorSpec := [
  ⟨"Night Resting HR", "night_rhr", "avg", false⟩,
  ⟨"Sleep HRV", "avg_sleep_hrv", "value", false⟩,
  ⟨"Sleep RHR", "sleep_rhr", "value", false⟩,
  ⟨"Recovery Index", "recovery_index", "value", false⟩,
  ⟨"Movement Index", "movement_index", "value", false⟩,
  ⟨"Active Minutes", "active_minutes", "value", false⟩,
  ⟨"VO2 Max", "vo2_max", "value", false⟩,
  ⟨"Sleep Start", "sleep", "bedtime_start", true⟩,
  ⟨"Sleep End", "sleep", "bedtime_end", true⟩]

/-- Embeds `UltrahumanSensor.native_value` (sensor.py:116-155), as a
function of the coordinator data and the sensor's configuration row.  The
timestamp branch wraps the conversion in try/except and returns `None` on
any exception, exactly as the source does. -/
def native_value (env : PyEnv) (data : JVal) (s : SensorSpec) :
    Except PyErr JVal :=
  if !truthy data then .ok .null
  else do
    let metricsByDay ← pyGetD data "metrics" (.obj [])
    if !truthy metricsByDay then pure .null
    else do
      let dayKey ← pyFirst metricsByDay
      if !truthy dayKey then pure .null
      else do
        let metrics ← pyGetKeyD metricsByDay dayKey (.list [])
        let metric ← get_metric metrics s.metric_type
        if !truthy metric then pure .null
        else do
          let o ← pyGetD metric "object" (.obj [])
          let value ← pyGet o s.value_key
          if isNone value then pure .null
          else if s.is_timestamp then do
            let tz ← pyGet data "latest_time_zone"
            match fromtimestampIso env tz value with
            | .ok v => pure v
            | .error _ => pure .null
          else pure value

/-- A record payload entry `{"type": t, "object": o}`. -/
def metricRecord (t : String) (o : List (String × JVal)) : JVal :=
  .obj [("type", .str t), ("object", .obj o)]

/-- A concrete zone database for evaluating the embedding: UTC, plus
Europe/London with its winter (GMT, UTC+0) offset — correct for every
instant used in the concrete payloads below — and no other zone. -/
def stdEnv : PyEnv where
  zones := fun s =>
    if s = "UTC" then some (fun _ => 0)
    else if s = "Europe/London" then some (fun _ => 0)
    else none
  localOff := fun _ => 0

/-- Bounds on the zone offsets a database can return: a real IANA zone
offset never exceeds a day in magnitude. -/
def envOK (env : PyEnv) : Prop :=
  (∀ s f, env.zones s = some f → ∀ n, |f n| ≤ 90000) ∧
  (∀ n, |env.localOff n| ≤ 90000)

/-- The time-zone entry is absent/falsy or a zone name the database knows. -/
def wfTz (env : PyEnv) (tz : JVal) : Bool :=
  !truthy tz ||
    (match tz with
     | .str s => (env.zones s).isSome
     | _ => false)

/-- A timestamp field is absent, falsy, or an epoch number comfortably
inside `datetime`'s representable range. -/
def wfTs : Option JVal → Bool
  | none => true
  | some v =>
      !truthy v ||
        (match v with
         | .num n => decide (-62000000000 ≤ n) && decide (n ≤ 253000000000)
         | .bool _ => true
         | _ => false)

/-- Well-shaped record object: the two-level fields of the `sleep`
projection paths hold dicts when present, and the timestamp fields are
well-shaped. -/
def wfObjFields (o : List (String × JVal)) : Bool :=
  (["sleep_score", "total_sleep", "time_in_bed"].all fun k =>
     match o.lookup k with
     | none => true
     | some (.obj _) => true
     | some _ => false) &&
  (["bedtime_start", "bedtime_end"].all fun k => wfTs (o.lookup k))

/-- Well-shaped metric record: a dict whose `object` entry, when present,
is a well-shaped dict. -/
def wfRec : JVal → Bool
  | .obj fs =>
      (match fs.lookup "object" with
       | none => true
       | some (.obj o) => wfObjFields o
       | some _ => false)
  | _ => false

/-- Well-shaped day record list: a list of well-shaped records. -/
def wfRecList : JVal → Bool
  | .list recs => recs.all wfRec
  | _ => false

/-- Well-shaped payload: a dict whose time-zone entry the database can
resolve (or is absent/falsy), and whose `metrics` entry, when present, is a
dict whose first day's value is a well-shaped record list. -/
def wfPayload (env : PyEnv) (raw : JVal) : Bool :=
  match raw with
  | .obj kvs =>
      wfTz env ((kvs.lookup "latest_time_zone").getD .null) &&
      (match kvs.lookup "metrics" with
       | none => true
       | some (.obj []) => true
       | some (.obj ((_, v) :: _)) => wfRecList v
       | some _ => false)
  | _ => false

/-- Record list whose elements are all dicts (no per-field constraints). -/
def isObjList : JVal → Bool
  | .list recs =>
      recs.all fun r =>
        match r with
        | .obj _ => true
        | _ => false
  | _ => false

/-- Fully populated synthetic day: one record per documented record type,
every documented field path populated. -/
def synthRecs : List JVal := [
  metricRecord "hr" [("last_reading", .num 61)],
  metricRecord "night_rhr" [("avg", .num 62)],
  metricRecord "avg_sleep_hrv" [("value", .num 63)],
  metricRecord "sleep_rhr" [("value", .num 64)],
  metricRecord "spo2" [("avg", .num 95)],
  metricRecord "vo2_max" [("value", .num 42)],
  metricRecord "sleep" [
    ("sleep_score", .obj [("score", .num 87)]),
    ("total_sleep", .obj [("minutes", .num 420)]),
    ("bedtime_start", .num 1700000000),
    ("bedtime_end", .num 1700030000),
    ("time_in_bed", .obj [("minutes", .num 450)]),
    ("sleep_efficiency", .num 93)],
  metricRecord "recovery_index" [("value", .num 71)],
  metricRecord "movement_index" [("value", .num 72)],
  metricRecord "active_minutes" [("value", .num 73)],
  metricRecord "steps" [("total", .num 10000)],
  metricRecord "calories" [("total", .num 2200)],
  metricRecord "skin_temperature" [("avg", .num 33), ("deviation", .num (-1))],
  metricRecord "stress" [("score", .num 21)],
  metricRecord "readiness" [("score", .num 81)],
  metricRecord "body_battery" [("value", .num 66)]]

/-- Fully populated synthetic payload (zone and instants as in the spec's
worked example: Europe/London around epoch 1700000000). -/
def synthRaw : JVal :=
  .obj [("latest_time_zone", .str "Europe/London"),
        ("metrics", .obj [("2023-11-14", .list synthRecs)])]

/-- The engine state `UltrahumanDataParser.__init__` builds from `synthRaw`. -/
def synthParser : UltrahumanDataParser :=
  ⟨synthRaw, .str "Europe/London", .str "2023-11-14", .list synthRecs⟩

/-- Payload whose `hr` record holds a non-dict under `object`. -/
def rawShapeHr : JVal :=
  .obj [("metrics", .obj [("d",
    .list [.obj [("type", .str "hr"), ("object", .num 5)]])])]

/-- The engine state built from `rawShapeHr`. -/
def pShapeHr : UltrahumanDataParser :=
  ⟨rawShapeHr, .null, .str "d",
   .list [.obj [("type", .str "hr"), ("object", .num 5)]]⟩

/-- Payload with a truthy timestamp and a zone name no database resolves. -/
def rawBadZone : JVal :=
  .obj [("latest_time_zone", .str "Mars/Phobos"),
        ("metrics", .obj [("d",
          .list [metricRecord "sleep" [("bedtime_start", .num 1700000000)]])])]

/-- The engine state built from `rawBadZone`. -/
def pBadZone : UltrahumanDataParser :=
  ⟨rawBadZone, .str "Mars/Phobos", .str "d",
   .list [metricRecord "sleep" [("bedtime_start", .num 1700000000)]]⟩

/-- Payload whose sleep record has `bedtime_start` present and equal to 0. -/
def rawZeroTs : JVal :=
  .obj [("metrics", .obj [("d",
    .list [metricRecord "sleep" [("bedtime_start", .num 0)]])])]

/-- The engine state built from `rawZeroTs`. -/
def pZeroTs : UltrahumanDataParser :=
  ⟨rawZeroTs, .null, .str "d",
   .list [metricRecord "sleep" [("bedtime_start", .num 0)]]⟩

/-- A fully populated `hr` record. -/
def hrRecPop : JVal := metricRecord "hr" [("last_reading", .num 61)]

/-- Day record list holding a junk entry ahead of a fully populated `hr`
record. -/
def recsJunkThenHr : List JVal := [.num 7, hrRecPop]

/-- Payload whose day list contains a junk entry followed by a fully
populated `hr` record. -/
def rawJunkThenHr : JVal :=
  .obj [("metrics", .obj [("d", .list recsJunkThenHr)])]

/-- The engine state built from `rawJunkThenHr`. -/
def pJunkThenHr : UltrahumanDataParser :=
  ⟨rawJunkThenHr, .null, .str "d", .list recsJunkThenHr⟩

/-- Payload whose sleep record holds `sleep_score: null` (a null at the
intermediate level of the two-level path `sleep_score.score`). -/
def rawNullScore : JVal :=
  .obj [("metrics", .obj [("d",
    .list [metricRecord "sleep" [("sleep_score", .null)]])])]

/-- The engine state built from `rawNullScore`. -/
def pNullScore : UltrahumanDataParser :=
  ⟨rawNullScore, .null, .str "d",
   .list [metricRecord "sleep" [("sleep_score", .null)]]⟩

/-- Payload whose sleep record holds the number 5 under `sleep_score` (a
non-dict, non-null value at the intermediate level of the two-level path
`sleep_score.score`). -/
def rawNumScore : JVal :=
  .obj [("metrics", .obj [("d",
    .list [metricRecord "sleep" [("sleep_score", .num 5)]])])]

/-- The engine state built from `rawNumScore`. -/
def pNumScore : UltrahumanDataParser :=
  ⟨rawNumScore, .null, .str "d",
   .list [metricRecord "sleep" [("sleep_score", .num 5)]]⟩

/-- Payload whose single day maps to a non-list value. -/
def rawDayNum : JVal := .obj [("metrics", .obj [("d", .num 5)])]

/-- The engine state built from `rawDayNum`. -/
def pDayNum : UltrahumanDataParser := ⟨rawDayNum, .null, .str "d", .num 5⟩

/-- Payload with two day-keys whose first day-key is the empty string,
holding a populated `hr` record. -/
def rawEmptyDayKey : JVal :=
  .obj [("metrics", .obj [("", .list [hrRecPop]), ("x2", .list [])])]

/-- The engine state built from `rawEmptyDayKey`: day-key `""` is falsy, so
the record list degrades to `[]`. -/
def pEmptyDayKey : UltrahumanDataParser :=
  ⟨rawEmptyDayKey, .null, .str "", .list []⟩

/-- The `Sleep Start` row of the legacy sensor table. -/
def sleepStartSensor : SensorSpec := ⟨"Sleep Start", "sleep", "bedtime_start", true⟩

/-- The `Sleep End` row of the legacy sensor table. -/
def sleepEndSensor : SensorSpec := ⟨"Sleep End", "sleep", "bedtime_end", true⟩

/-- Payload whose sleep record holds both timestamps present and equal to 0,
with an explicit UTC zone. -/
def rawZeroBoth : JVal :=
  .obj [("latest_time_zone", .str "UTC"),
        ("metrics", .obj [("2025-01-01",
          .list [metricRecord "sleep"
            [("bedtime_start", .num 0), ("bedtime_end", .num 0)]])])]

/-- The engine state built from `rawZeroBoth`. -/
def pZeroBoth : UltrahumanDataParser :=
  ⟨rawZeroBoth, .str "UTC", .str "2025-01-01",
   .list [metricRecord "sleep"
     [("bedtime_start", .num 0), ("bedtime_end", .num 0)]]⟩

/-- Like `rawZeroBoth` but with the timestamp fields missing entirely. -/
def rawTsMissing : JVal :=
  .obj [("latest_time_zone", .str "UTC"),
        ("metrics", .obj [("2025-01-01",
          .list [metricRecord "sleep" []])])]

/-- Like `rawZeroBoth` but with the timestamp fields present and null. -/
def rawTsNull : JVal :=
  .obj [("latest_time_zone", .str "UTC"),
        ("metrics", .obj [("2025-01-01",
          .list [metricRecord "sleep"
            [("bedtime_start", .null), ("bedtime_end", .null)]])])]

/-- The fully populated sleep object of `synthRecs`. -/
def sleepObjPop : List (String × JVal) := [
  ("sleep_score", .obj [("score", .num 87)]),
  ("total_sleep", .obj [("minutes", .num 420)]),
  ("bedtime_start", .num 1700000000),
  ("bedtime_end", .num 1700030000),
  ("time_in_bed", .obj [("minutes", .num 450)]),
  ("sleep_efficiency", .num 93)]

/-- The values `get_value` is expected to produce on `synthRaw`, in
`METRICS` order: the populated number for each plain key and the ISO-8601
rendering (with offset) of the populated epoch seconds for the two
timestamp keys. -/
def synthExpected : List (Except PyErr JVal) := [
  .ok (.num 61), .ok (.num 62), .ok (.num 63), .ok (.num 64),
  .ok (.num 95), .ok (.num 42),
  .ok (.num 87), .ok (.num 420),
  .ok (.str "2023-11-14T22:13:20+00:00"),
  .ok (.str "2023-11-15T06:33:20+00:00"),
  .ok (.num 450), .ok (.num 93),
  .ok (.num 71), .ok (.num 72), .ok (.num 73),
  .ok (.num 10000), .ok (.num 2200),
  .ok (.num 33), .ok (.num (-1)), .ok (.num 21),
  .ok (.num 81), .ok (.num 66)]

/-- Payload with two non-empty day-keys. -/
def rawTwoDays : JVal :=
  .obj [("metrics", .obj [("2025-01-01", .list [hrRecPop]),
                          ("2025-01-02", .list [])])]

/-! Helper lemmas about the embedding. -/

theorem ok_bind {α β : Type} (a : α) (f : α → Except PyErr β) :
    (Except.ok a >>= f) = f a := rfl

theorem err_bind {α β : Type} (e : PyErr) (f : α → Except PyErr β) :
    ((Except.error e : Except PyErr α) >>= f) = .error e := rfl

theorem pure_ok {α : Type} (a : α) : (pure a : Except PyErr α) = .ok a := rfl

theorem iso_null (env : PyEnv) (tz : JVal) : _iso env tz .null = .ok .null := rfl

theorem get_obj_nil (t : String) : get_obj (.list []) t = .ok (.obj []) := rfl

theorem pyGet_obj (o : List (String × JVal)) (k : String) :
    pyGet (.obj o) k = .ok ((o.lookup k).getD .null) := rfl

theorem pyGetD_obj (o : List (String × JVal)) (k : String) (d : JVal) :
    pyGetD (.obj o) k d = .ok ((o.lookup k).getD d) := rfl

theorem get_value_core_empty (env : PyEnv) (tz : JVal) (key : String) :
    get_value_core env tz (.list []) key = .ok .null := by
  simp only [get_value_core, get_obj_nil, ok_bind, pyGet_obj, pyGetD_obj,
    List.lookup_nil, Option.getD_none, iso_null, pure_ok, ite_self]

theorem firstMatch_wfRec (t : String) (recs : List JVal)
    (h : ∀ r ∈ recs, wfRec r = true) :
    ∃ m, firstMatch t recs = .ok m ∧ (m = .null ∨ wfRec m = true) := by
  induction recs with
  | nil => exact ⟨.null, rfl, Or.inl rfl⟩
  | cons r rest ih =>
      have hr : wfRec r = true := h r (List.mem_cons_self r rest)
      have hrest : ∀ x ∈ rest, wfRec x = true := fun x hx => h x (List.mem_cons_of_mem r hx)
      obtain ⟨fs, rfl⟩ : ∃ fs, r = .obj fs := by
        cases r
        case obj fs => exact ⟨fs, rfl⟩
        all_goals simp [wfRec] at hr
      obtain ⟨m, hm, hmw⟩ := ih hrest
      by_cases hb : (match (fs.lookup "type").getD .null with
                     | .str s => s == t
                     | _ => false) = true
      · refine ⟨.obj fs, ?_, Or.inr hr⟩
        simp [firstMatch, typeMatches, hb, ok_bind, pure_ok]
      · refine ⟨m, ?_, hmw⟩
        simp only [firstMatch, typeMatches, ok_bind]
        rw [if_neg]
        · exact hm
        · simpa using hb

theorem wfObjFields_nil : wfObjFields [] = true := rfl

theorem get_obj_wf (ms : JVal) (t : String) (h : wfRecList ms = true) :
    ∃ o, get_obj ms t = .ok (.obj o) ∧ wfObjFields o = true := by
  obtain ⟨recs, rfl⟩ : ∃ recs, ms = .list recs := by
    cases ms
    case list recs => exact ⟨recs, rfl⟩
    all_goals simp [wfRecList] at h
  have hall : ∀ r ∈ recs, wfRec r = true := by
    simpa [wfRecList, List.all_eq_true] using h
  obtain ⟨m, hm, hmw⟩ := firstMatch_wfRec t recs hall
  have hgm : get_metric (.list recs) t = .ok m := by
    simpa [get_metric, iterItems, ok_bind] using hm
  rcases hmw with rfl | hw
  · exact ⟨[], by simp [get_obj, hgm, ok_bind, truthy, pure_ok], wfObjFields_nil⟩
  · obtain ⟨fs, rfl⟩ : ∃ fs, m = .obj fs := by
      cases m
      case obj fs => exact ⟨fs, rfl⟩
      all_goals simp [wfRec] at hw
    by_cases hfs : fs.isEmpty
    · refine ⟨[], ?_, wfObjFields_nil⟩
      simp [get_obj, hgm, ok_bind, truthy, hfs, pure_ok]
    · have htr : truthy (.obj fs) = true := by simp [truthy, hfs]
      rcases hlk : fs.lookup "object" with _ | v
      · refine ⟨[], ?_, wfObjFields_nil⟩
        simp [get_obj, hgm, ok_bind, htr, pyGetD, hlk, pure_ok]
      · rcases v with _ | b | n | s | xs | o
        · exact absurd hw (by simp [wfRec, hlk])
        · exact absurd hw (by simp [wfRec, hlk])
        · exact absurd hw (by simp [wfRec, hlk])
        · exact absurd hw (by simp [wfRec, hlk])
        · exact absurd hw (by simp [wfRec, hlk])
        · refine ⟨o, ?_, ?_⟩
          · simp [get_obj, hgm, ok_bind, htr, pyGetD, hlk, pure_ok]
          · simpa [wfRec, hlk] using hw

theorem wfObjFields_split (o : List (String × JVal)) (hw : wfObjFields o = true) :
    ((match o.lookup "sleep_score" with
      | none => true | some (.obj _) => true | some _ => false) = true ∧
     (match o.lookup "total_sleep" with
      | none => true | some (.obj _) => true | some _ => false) = true ∧
     (match o.lookup "time_in_bed" with
      | none => true | some (.obj _) => true | some _ => false) = true) ∧
    wfTs (o.lookup "bedtime_start") = true ∧ wfTs (o.lookup "bedtime_end") = true := by
  simpa only [wfObjFields, Bool.and_eq_true, List.all_cons, List.all_nil,
    Bool.and_true] using hw

theorem wfTs_getD (u : Option JVal) (h : wfTs u = true) :
    wfTs (some (u.getD .null)) = true := by
  rcases u with _ | v
  · rfl
  · simpa using h

theorem inner_field_obj (u : Option JVal)
    (h : (match u with
          | none => true | some (.obj _) => true | some _ => false) = true) :
    ∃ i, u.getD (.obj []) = .obj i := by
  rcases u with _ | v
  · exact ⟨[], rfl⟩
  · rcases v with _ | b | n | s | xs | i
    · exact absurd h (by simp)
    · exact absurd h (by simp)
    · exact absurd h (by simp)
    · exact absurd h (by simp)
    · exact absurd h (by simp)
    · exact ⟨i, rfl⟩

theorem fromtimestampIso_bool (env : PyEnv) (tz : JVal) (b : Bool) :
    fromtimestampIso env tz (.bool b) =
      fromtimestampIso env tz (.num (if b then 1 else 0)) := rfl

theorem fromtimestampIso_num_ok (env : PyEnv) (tz : JVal) (n : Int)
    (henv : envOK env) (htz : wfTz env tz = true)
    (h1 : -62000000000 ≤ n) (h2 : n ≤ 253000000000) :
    ∃ s, fromtimestampIso env tz (.num n) = .ok (.str s) := by
  by_cases htzt : truthy tz = true
  case pos =>
    obtain ⟨s, f, rfl, hf⟩ : ∃ s f, tz = .str s ∧ env.zones s = some f := by
      simp only [wfTz, htzt, Bool.not_true, Bool.false_or] at htz
      rcases tz with _ | b | m | s | xs | o
      · simp at htz
      · simp at htz
      · simp at htz
      · obtain ⟨f, hf⟩ := Option.isSome_iff_exists.mp (by simpa using htz)
        exact ⟨s, f, rfl, hf⟩
      · simp at htz
      · simp at htz
    have hb := abs_le.mp (henv.1 s f hf n)
    refine ⟨isoRender (n + f n) (some (f n)), ?_⟩
    simp only [fromtimestampIso, htzt, if_true, hf, pure_ok, ok_bind]
    rw [if_neg (by simp only [minDatetimeSec, maxDatetimeSec]; omega :
      ¬(n + f n < minDatetimeSec ∨ n + f n > maxDatetimeSec))]
  case neg =>
    have hb := abs_le.mp (henv.2 n)
    refine ⟨isoRender (n + env.localOff n) none, ?_⟩
    simp only [fromtimestampIso]
    rw [if_neg (by simpa using htzt)]
    simp only [pure_ok, ok_bind]
    rw [if_neg (by simp only [minDatetimeSec, maxDatetimeSec]; omega :
      ¬(n + env.localOff n < minDatetimeSec ∨ n + env.localOff n > maxDatetimeSec))]

theorem iso_wf (env : PyEnv) (tz ts : JVal) (henv : envOK env)
    (htz : wfTz env tz = true) (hts : wfTs (some ts) = true) :
    ∃ v, _iso env tz ts = .ok v := by
  by_cases htr : truthy ts = true
  case neg =>
    refine ⟨.null, ?_⟩
    simp only [_iso]
    rw [if_pos]
    simpa using htr
  case pos =>
  have hiso : _iso env tz ts = fromtimestampIso env tz ts := by
    simp [_iso, htr]
  rcases ts with _ | b | n | s | xs | o
  · simp [truthy] at htr
  · obtain ⟨s, hs⟩ :=
      fromtimestampIso_num_ok env tz (if b then 1 else 0) henv htz
        (by split <;> omega) (by split <;> omega)
    exact ⟨.str s, by rw [hiso, fromtimestampIso_bool, hs]⟩
  · have hn : -62000000000 ≤ n ∧ n ≤ 253000000000 := by
      simp only [wfTs, htr, Bool.not_true, Bool.false_or, Bool.and_eq_true,
        decide_eq_true_eq] at hts
      exact hts
    obtain ⟨s, hs⟩ := fromtimestampIso_num_ok env tz n henv htz hn.1 hn.2
    exact ⟨.str s, by rw [hiso, hs]⟩
  · exfalso; simp [wfTs, truthy] at hts htr; exact htr hts
  · exfalso; simp [wfTs, truthy] at hts htr; exact htr hts
  · exfalso; simp [wfTs, truthy] at hts htr; exact htr hts

theorem get_value_core_wf (env : PyEnv) (tz ms : JVal) (key : String)
    (henv : envOK env) (htz : wfTz env tz = true) (hms : wfRecList ms = true) :
    ∃ v, get_value_core env tz ms key = .ok v := by
  obtain ⟨so, hso, hsw⟩ := get_obj_wf ms "sleep" hms
  by_cases h1 : key = "hr_last"
  · obtain ⟨o, ho, -⟩ := get_obj_wf ms "hr" hms
    exact ⟨(o.lookup "last_reading").getD .null,
      by simp [get_value_core, h1, ho, ok_bind, pyGet_obj]⟩
  by_cases h2 : key = "night_rhr"
  · obtain ⟨o, ho, -⟩ := get_obj_wf ms "night_rhr" hms
    exact ⟨(o.lookup "avg").getD .null,
      by simp [get_value_core, h2, ho, ok_bind, pyGet_obj]⟩
  by_cases h3 : key = "hrv_avg"
  · obtain ⟨o, ho, -⟩ := get_obj_wf ms "avg_sleep_hrv" hms
    exact ⟨(o.lookup "value").getD .null,
      by simp [get_value_core, h3, ho, ok_bind, pyGet_obj]⟩
  by_cases h4 : key = "sleep_rhr"
  · obtain ⟨o, ho, -⟩ := get_obj_wf ms "sleep_rhr" hms
    exact ⟨(o.lookup "value").getD .null,
      by simp [get_value_core, h4, ho, ok_bind, pyGet_obj]⟩
  by_cases h5 : key = "spo2_avg"
  · obtain ⟨o, ho, -⟩ := get_obj_wf ms "spo2" hms
    exact ⟨(o.lookup "avg").getD .null,
      by simp [get_value_core, h5, ho, ok_bind, pyGet_obj]⟩
  by_cases h6 : key = "vo2_max"
  · obtain ⟨o, ho, -⟩ := get_obj_wf ms "vo2_max" hms
    exact ⟨(o.lookup "value").getD .null,
      by simp [get_value_core, h6, ho, ok_bind, pyGet_obj]⟩
  by_cases h7 : key = "sleep_score"
  · obtain ⟨i, hi⟩ := inner_field_obj (so.lookup "sleep_score")
      (wfObjFields_split so hsw).1.1
    exact ⟨(i.lookup "score").getD .null,
      by simp [get_value_core, h7, hso, ok_bind, pyGetD_obj, hi, pyGet_obj]⟩
  by_cases h8 : key = "total_sleep"
  · obtain ⟨i, hi⟩ := inner_field_obj (so.lookup "total_sleep")
      (wfObjFields_split so hsw).1.2.1
    exact ⟨(i.lookup "minutes").getD .null,
      by simp [get_value_core, h8, hso, ok_bind, pyGetD_obj, hi, pyGet_obj]⟩
  by_cases h9 : key = "sleep_start"
  · have hts := wfTs_getD (so.lookup "bedtime_start") (wfObjFields_split so hsw).2.1
    obtain ⟨v, hv⟩ := iso_wf env tz ((so.lookup "bedtime_start").getD .null) henv htz hts
    exact ⟨v, by simp [get_value_core, h9, hso, ok_bind, pyGet_obj, hv]⟩
  by_cases h10 : key = "sleep_end"
  · have hts := wfTs_getD (so.lookup "bedtime_end") (wfObjFields_split so hsw).2.2
    obtain ⟨v, hv⟩ := iso_wf env tz ((so.lookup "bedtime_end").getD .null) henv htz hts
    exact ⟨v, by simp [get_value_core, h10, hso, ok_bind, pyGet_obj, hv]⟩
  by_cases h11 : key = "time_in_bed"
  · obtain ⟨i, hi⟩ := inner_field_obj (so.lookup "time_in_bed")
      (wfObjFields_split so hsw).1.2.2
    exact ⟨(i.lookup "minutes").getD .null,
      by simp [get_value_core, h11, hso, ok_bind, pyGetD_obj, hi, pyGet_obj]⟩
  by_cases h12 : key = "sleep_efficiency"
  · exact ⟨(so.lookup "sleep_efficiency").getD .null,
      by simp [get_value_core, h12, hso, ok_bind, pyGet_obj]⟩
  by_cases h13 : key = "recovery_index"
  · obtain ⟨o, ho, -⟩ := get_obj_wf ms "recovery_index" hms
    exact ⟨(o.lookup "value").getD .null,
      by simp [get_value_core, h13, hso, ho, ok_bind, pyGet_obj]⟩
  by_cases h14 : key = "movement_index"
  · obtain ⟨o, ho, -⟩ := get_obj_wf ms "movement_index" hms
    exact ⟨(o.lookup "value").getD .null,
      by simp [get_value_core, h14, hso, ho, ok_bind, pyGet_obj]⟩
  by_cases h15 : key = "active_minutes"
  · obtain ⟨o, ho, -⟩ := get_obj_wf ms "active_minutes" hms
    exact ⟨(o.lookup "value").getD .null,
      by simp [get_value_core, h15, hso, ho, ok_bind, pyGet_obj]⟩
  by_cases h16 : key = "steps"
  · obtain ⟨o, ho, -⟩ := get_obj_wf ms "steps" hms
    exact ⟨(o.lookup "total").getD .null,
      by simp [get_value_core, h16, hso, ho, ok_bind, pyGet_obj]⟩
  by_cases h17 : key = "calories"
  · obtain ⟨o, ho, -⟩ := get_obj_wf ms "calories" hms
    exact ⟨(o.lookup "total").getD .null,
      by simp [get_value_core, h17, hso, ho, ok_bind, pyGet_obj]⟩
  by_cases h18 : key = "skin_temp"
  · obtain ⟨o, ho, -⟩ := get_obj_wf ms "skin_temperature" hms
    exact ⟨(o.lookup "avg").getD .null,
      by simp [get_value_core, h18, hso, ho, ok_bind, pyGet_obj]⟩
  by_cases h19 : key = "temp_deviation"
  · obtain ⟨o, ho, -⟩ := get_obj_wf ms "skin_temperature" hms
    exact ⟨(o.lookup "deviation").getD .null,
      by simp [get_value_core, h19, hso, ho, ok_bind, pyGet_obj]⟩
  by_cases h20 : key = "stress_score"
  · obtain ⟨o, ho, -⟩ := get_obj_wf ms "stress" hms
    exact ⟨(o.lookup "score").getD .null,
      by simp [get_value_core, h20, hso, ho, ok_bind, pyGet_obj]⟩
  by_cases h21 : key = "readiness_score"
  · obtain ⟨o, ho, -⟩ := get_obj_wf ms "readiness" hms
    exact ⟨(o.lookup "score").getD .null,
      by simp [get_value_core, h21, hso, ho, ok_bind, pyGet_obj]⟩
  by_cases h22 : key = "body_battery"
  · obtain ⟨o, ho, -⟩ := get_obj_wf ms "body_battery" hms
    exact ⟨(o.lookup "value").getD .null,
      by simp [get_value_core, h22, hso, ho, ok_bind, pyGet_obj]⟩
  exact ⟨.null, by simp [get_value_core, h1, h2, h3, h4, h5, h6, h7, h8, h9, h10,
    h11, h12, h13, h14, h15, h16, h17, h18, h19, h20, h21, h22, hso, ok_bind, pure_ok]⟩

theorem mkParser_wf (env : PyEnv) (raw : JVal) (hwf : wfPayload env raw = true) :
    ∃ p, mkParser raw = .ok p ∧ wfTz env p.tz = true ∧ wfRecList p.metrics = true := by
  obtain ⟨kvs, rfl⟩ : ∃ kvs, raw = .obj kvs := by
    cases raw
    case obj kvs => exact ⟨kvs, rfl⟩
    all_goals simp [wfPayload] at hwf
  simp only [wfPayload, Bool.and_eq_true] at hwf
  obtain ⟨htz, hm⟩ := hwf
  rcases hlk : kvs.lookup "metrics" with _ | mv
  · refine ⟨⟨.obj kvs, (kvs.lookup "latest_time_zone").getD .null, .null, .list []⟩,
      ?_, htz, rfl⟩
    simp [mkParser, pyGet_obj, pyGetD_obj, hlk, ok_bind, pyFirst, iterItems,
      truthy, pure_ok]
  · rw [hlk] at hm
    rcases mv with _ | b | n | s | xs | days
    · simp at hm
    · simp at hm
    · simp at hm
    · simp at hm
    · simp at hm
    rcases days with _ | ⟨⟨k, v⟩, rest⟩
    · refine ⟨⟨.obj kvs, (kvs.lookup "latest_time_zone").getD .null, .null, .list []⟩,
        ?_, htz, rfl⟩
      simp [mkParser, pyGet_obj, pyGetD_obj, hlk, ok_bind, pyFirst, iterItems,
        truthy, pure_ok]
    · have hv : wfRecList v = true := by simpa using hm
      by_cases hk : k = ""
      · refine ⟨⟨.obj kvs, (kvs.lookup "latest_time_zone").getD .null, .str k, .list []⟩,
          ?_, htz, rfl⟩
        simp [mkParser, pyGet_obj, pyGetD_obj, hlk, ok_bind, pyFirst, iterItems,
          truthy, hk, pure_ok]
      · refine ⟨⟨.obj kvs, (kvs.lookup "latest_time_zone").getD .null, .str k, v⟩,
          ?_, htz, hv⟩
        simp [mkParser, pyGet_obj, pyGetD_obj, hlk, ok_bind, pyFirst, iterItems,
          truthy, hk, pyGetKeyD, List.lookup, pure_ok]

/-! Claim theorems. -/

theorem stdEnv_ok : envOK stdEnv := by
  refine ⟨fun s f h n => ?_, fun n => by simp [stdEnv]⟩
  simp only [stdEnv] at h
  split at h
  · injection h with h; subst h; simp
  · split at h
    · injection h with h; subst h; simp
    · exact absurd h (by simp)

theorem firstMatch_objs (t : String) (recs : List JVal)
    (h : ∀ r ∈ recs, ∃ fs, r = .obj fs) :
    ∃ m, firstMatch t recs = .ok m ∧ (m = .null ∨ ∃ fs, m = .obj fs) := by
  induction recs with
  | nil => exact ⟨.null, rfl, Or.inl rfl⟩
  | cons r rest ih =>
      obtain ⟨fs, rfl⟩ := h r (List.mem_cons_self r rest)
      obtain ⟨m, hm, hmo⟩ := ih fun x hx => h x (List.mem_cons_of_mem _ hx)
      by_cases hb : (match (fs.lookup "type").getD .null with
                     | .str s => s == t
                     | _ => false) = true
      · refine ⟨.obj fs, ?_, Or.inr ⟨fs, rfl⟩⟩
        simp [firstMatch, typeMatches, hb, ok_bind, pure_ok]
      · refine ⟨m, ?_, hmo⟩
        simp only [firstMatch, typeMatches, ok_bind]
        rw [if_neg]
        · exact hm
        · simpa using hb

theorem get_obj_objlist (ms : JVal) (t : String) (h : isObjList ms = true) :
    ∃ o, get_obj ms t = .ok o := by
  obtain ⟨recs, rfl⟩ : ∃ recs, ms = .list recs := by
    cases ms
    case list recs => exact ⟨recs, rfl⟩
    all_goals simp [isObjList] at h
  have hall : ∀ r ∈ recs, ∃ fs, r = .obj fs := by
    intro r hr
    have := (List.all_eq_true.mp (by simpa [isObjList] using h)) r hr
    cases r
    case obj fs => exact ⟨fs, rfl⟩
    all_goals simp at this
  obtain ⟨m, hm, hmo⟩ := firstMatch_objs t recs hall
  have hgm : get_metric (.list recs) t = .ok m := by
    simpa [get_metric, iterItems, ok_bind] using hm
  rcases hmo with rfl | ⟨fs, rfl⟩
  · exact ⟨.obj [], by simp [get_obj, hgm, ok_bind, truthy, pure_ok]⟩
  · by_cases htr : truthy (.obj fs) = true
    · exact ⟨(fs.lookup "object").getD (.obj []),
        by simp [get_obj, hgm, ok_bind, htr, pyGetD_obj, pure_ok]⟩
    · exact ⟨.obj [], by
        simp only [get_obj, hgm, ok_bind]
        rw [if_neg (by simpa using htr)]
        rfl⟩

/-- C1: the claim says `get_value` never raises for a payload of any shape
and any key.  The code refutes it: on `rawShapeHr`, whose `hr` record holds
the number 5 under `object`, `get_value "hr_last"` reaches `5 .get(...)`
and raises `AttributeError`. -/
theorem c1_counterexample :
    mkParser rawShapeHr = .ok pShapeHr ∧
    get_value stdEnv pShapeHr "hr_last" = .error .attributeError := ⟨rfl, rfl⟩

/-- C1 (amended): for every payload that is well-shaped in the sense of
`wfPayload` (a dict; resolvable-or-absent zone; the chosen day's records
are dicts whose `object` entries are dicts with dict-valued two-level
fields and in-range numeric-or-falsy timestamps), and any key (registered
or not), the constructor succeeds and `get_value` returns a value — it
never raises. -/
theorem c1_get_value_never_raises (env : PyEnv) (raw : JVal) (key : String)
    (henv : envOK env) (hwf : wfPayload env raw = true) :
    ∃ p, mkParser raw = .ok p ∧ ∃ v, get_value env p key = .ok v := by
  obtain ⟨p, hp, htz, hms⟩ := mkParser_wf env raw hwf
  obtain ⟨v, hv⟩ := get_value_core_wf env p.tz p.metrics key henv htz hms
  exact ⟨p, hp, v, hv⟩

/-- C1 witness: the amended theorem applied to the synthetic payload and a
concrete key. -/
theorem c1_get_value_never_raises_witness :
    ∃ p, mkParser synthRaw = .ok p ∧
      ∃ v, get_value stdEnv p "hr_last" = .ok v :=
  c1_get_value_never_raises stdEnv synthRaw "hr_last" stdEnv_ok (by decide)

/-- C2: on `rawBadZone` (truthy epoch timestamp, zone name `Mars/Phobos`
unknown to the database) the parser engine's `get_value "sleep_start"`
propagates `ZoneInfoNotFoundError` — `_iso` in parser.py has no
try/except — while the legacy sensor path (sensor.py), which wraps the
same conversion in `try/except Exception`, returns `None` on the same
payload, matching the documented "conversion failure yields Absent"
policy. -/
theorem c2_zone_failure_divergence :
    mkParser rawBadZone = .ok pBadZone ∧
    get_value stdEnv pBadZone "sleep_start" = .error .zoneInfoNotFoundError ∧
    sleepStartSensor ∈ SENSORS ∧
    native_value stdEnv rawBadZone sleepStartSensor = .ok .null :=
  ⟨rfl, rfl, by decide, rfl⟩

/-- C3: for every payload on which the sleep-object traversal succeeds and
yields a falsy `bedtime_start` (0, missing, null, ...), resolving
`sleep_start` returns Absent — a zero timestamp is never rendered as the
epoch-zero instant, whatever the environment or time zone. -/
theorem c3_falsy_timestamp_absent (env : PyEnv) (p : UltrahumanDataParser)
    (s v : JVal) (hs : get_obj p.metrics "sleep" = .ok s)
    (hv : pyGet s "bedtime_start" = .ok v) (hf : truthy v = false) :
    get_value env p "sleep_start" = .ok .null := by
  simp [get_value, get_value_core, hs, ok_bind, hv, _iso, hf]

/-- C3 witness: the theorem applied to the concrete payload whose
`bedtime_start` is present and 0. -/
theorem c3_falsy_timestamp_absent_witness :
    get_value stdEnv pZeroTs "sleep_start" = .ok .null :=
  c3_falsy_timestamp_absent stdEnv pZeroTs
    (.obj [("bedtime_start", .num 0)]) (.num 0) rfl rfl rfl

/-- C4: the claim quantifies over every payload whose chosen day's record
list contains a fully populated record of the key's documented type.  The
code refutes it: `rawJunkThenHr`'s day list contains the fully populated
`hr` record `hrRecPop`, yet `get_value "hr_last"` raises `AttributeError`
because the record scan hits the junk entry `7` first. -/
theorem c4_counterexample :
    mkParser rawJunkThenHr = .ok pJunkThenHr ∧
    pJunkThenHr.metrics = .list recsJunkThenHr ∧
    hrRecPop ∈ recsJunkThenHr ∧
    get_value stdEnv pJunkThenHr "hr_last" = .error .attributeError :=
  ⟨rfl, rfl, List.Mem.tail _ (List.Mem.head _), rfl⟩

/-- C4 (amended): every one of the 22 registered keys has a projection rule
in the engine: on the fully populated synthetic payload `synthRaw`,
`get_value` returns, for each registered key in registry order, exactly the
populated value of the documented primitive kind — a number for the plain
keys and the ISO-8601 offset rendering of the populated epoch seconds for
the two timestamp keys — and never Absent. -/
theorem c4_registry_roundtrip :
    mkParser synthRaw = .ok synthParser ∧
    METRICS.map (fun m => get_value stdEnv synthParser m.key) = synthExpected ∧
    synthExpected.all
      (fun r => match r with | .ok v => !isNone v | .error _ => false) = true :=
  ⟨rfl, rfl, rfl⟩

/-- C5: the claim says any traversal step that finds a missing or null
field yields Absent.  The code refutes it for a null at the intermediate
level of a two-level path: on `rawNullScore`, whose sleep object holds
`sleep_score: null`, `get_value "sleep_score"` raises `AttributeError`
(`None .get("score")`). -/
theorem c5_counterexample :
    mkParser rawNullScore = .ok pNullScore ∧
    get_value stdEnv pNullScore "sleep_score" = .error .attributeError :=
  ⟨rfl, rfl⟩

/-- C5 (amended), on the representative two-level path
`sleep_score.score`: the projected value is returned verbatim whatever is
stored at the final field (so in particular when it is the expected
primitive), a missing record or missing intermediate or missing/null final
field yields Absent, but a null or any other non-dict value at the
intermediate level raises `AttributeError` instead of yielding Absent. -/
theorem c5_projection_steps (env : PyEnv) (p : UltrahumanDataParser)
    (o : List (String × JVal))
    (hs : get_obj p.metrics "sleep" = .ok (.obj o)) :
    (o.lookup "sleep_score" = none →
       get_value env p "sleep_score" = .ok .null) ∧
    (∀ i, o.lookup "sleep_score" = some (.obj i) →
       get_value env p "sleep_score" = .ok ((i.lookup "score").getD .null)) ∧
    (∀ v, o.lookup "sleep_score" = some v → (∀ i, v ≠ .obj i) →
       get_value env p "sleep_score" = .error .attributeError) := by
  refine ⟨fun h => ?_, fun i h => ?_, fun v h hnd => ?_⟩
  · simp [get_value, get_value_core, hs, ok_bind, pyGetD_obj, h, pyGet_obj]
  · simp [get_value, get_value_core, hs, ok_bind, pyGetD_obj, h, pyGet_obj]
  · rcases v with _ | b | n | s | xs | i
    · simp [get_value, get_value_core, hs, ok_bind, pyGetD_obj, h, pyGet]
    · simp [get_value, get_value_core, hs, ok_bind, pyGetD_obj, h, pyGet]
    · simp [get_value, get_value_core, hs, ok_bind, pyGetD_obj, h, pyGet]
    · simp [get_value, get_value_core, hs, ok_bind, pyGetD_obj, h, pyGet]
    · simp [get_value, get_value_core, hs, ok_bind, pyGetD_obj, h, pyGet]
    · exact absurd rfl (hnd i)

/-- C5 witness: the verbatim-projection conjunct applied to the synthetic
payload, whose sleep object holds `sleep_score.score = 87`, and the
non-dict-intermediate conjunct applied to the payload whose sleep object
holds `sleep_score: 5`. -/
theorem c5_projection_steps_witness :
    get_value stdEnv synthParser "sleep_score" = .ok (.num 87) ∧
    get_value stdEnv pNumScore "sleep_score" = .error .attributeError := by
  constructor
  · have h := (c5_projection_steps stdEnv synthParser sleepObjPop rfl).2.1
      [("score", .num 87)] rfl
    simpa using h
  · exact (c5_projection_steps stdEnv pNumScore
      [("sleep_score", .num 5)] rfl).2.2 (.num 5) rfl (fun i h => nomatch h)

/-- C6: the claim says an unknown key yields Absent for every payload,
never an error.  The code refutes it: `get_value` evaluates
`self._obj("sleep")` before dispatching on the non-cardio keys, so on
`rawDayNum` (whose day maps to the non-list `5`) even the unregistered key
`"bogus"` raises `TypeError`. -/
theorem c6_counterexample :
    mkParser rawDayNum = .ok pDayNum ∧
    (∀ m ∈ METRICS, ("bogus" : String) ≠ m.key) ∧
    get_value stdEnv pDayNum "bogus" = .error .typeError :=
  ⟨rfl, by decide, rfl⟩

/-- C6 (amended): for every payload whose chosen day's record list is a
list of dicts, `get_value` on any key outside the registry returns Absent
and never an error. -/
theorem c6_unknown_key_absent (env : PyEnv) (p : UltrahumanDataParser)
    (key : String) (hm : isObjList p.metrics = true)
    (hk : ∀ m ∈ METRICS, key ≠ m.key) :
    get_value env p key = .ok .null := by
  have h1 : key ≠ "hr_last" := hk ⟨"hr_last", "Heart Rate"⟩ (by simp [METRICS])
  have h2 : key ≠ "night_rhr" := hk ⟨"night_rhr", "Night Resting HR"⟩ (by simp [METRICS])
  have h3 : key ≠ "hrv_avg" := hk ⟨"hrv_avg", "HRV"⟩ (by simp [METRICS])
  have h4 : key ≠ "sleep_rhr" := hk ⟨"sleep_rhr", "Sleep RHR"⟩ (by simp [METRICS])
  have h5 : key ≠ "spo2_avg" := hk ⟨"spo2_avg", "SpO2"⟩ (by simp [METRICS])
  have h6 : key ≠ "vo2_max" := hk ⟨"vo2_max", "VO2 Max"⟩ (by simp [METRICS])
  have h7 : key ≠ "sleep_score" := hk ⟨"sleep_score", "Sleep Score"⟩ (by simp [METRICS])
  have h8 : key ≠ "total_sleep" := hk ⟨"total_sleep", "Total Sleep"⟩ (by simp [METRICS])
  have h9 : key ≠ "sleep_start" := hk ⟨"sleep_start", "Sleep Start"⟩ (by simp [METRICS])
  have h10 : key ≠ "sleep_end" := hk ⟨"sleep_end", "Sleep End"⟩ (by simp [METRICS])
  have h11 : key ≠ "time_in_bed" := hk ⟨"time_in_bed", "Time in Bed"⟩ (by simp [METRICS])
  have h12 : key ≠ "sleep_efficiency" := hk ⟨"sleep_efficiency", "Sleep Efficiency"⟩ (by simp [METRICS])
  have h13 : key ≠ "recovery_index" := hk ⟨"recovery_index", "Recovery Index"⟩ (by simp [METRICS])
  have h14 : key ≠ "movement_index" := hk ⟨"movement_index", "Movement Index"⟩ (by simp [METRICS])
  have h15 : key ≠ "active_minutes" := hk ⟨"active_minutes", "Active Minutes"⟩ (by simp [METRICS])
  have h16 : key ≠ "steps" := hk ⟨"steps", "Steps"⟩ (by simp [METRICS])
  have h17 : key ≠ "calories" := hk ⟨"calories", "Calories Burned"⟩ (by simp [METRICS])
  have h18 : key ≠ "skin_temp" := hk ⟨"skin_temp", "Skin Temperature"⟩ (by simp [METRICS])
  have h19 : key ≠ "temp_deviation" := hk ⟨"temp_deviation", "Temperature Deviation"⟩ (by simp [METRICS])
  have h20 : key ≠ "stress_score" := hk ⟨"stress_score", "Stress Score"⟩ (by simp [METRICS])
  have h21 : key ≠ "readiness_score" := hk ⟨"readiness_score", "Readiness Score"⟩ (by simp [METRICS])
  have h22 : key ≠ "body_battery" := hk ⟨"body_battery", "Body Battery"⟩ (by simp [METRICS])
  obtain ⟨sv, hsv⟩ := get_obj_objlist p.metrics "sleep" hm
  simp [get_value, get_value_core, h1, h2, h3, h4, h5, h6, h7, h8, h9, h10,
    h11, h12, h13, h14, h15, h16, h17, h18, h19, h20, h21, h22, hsv, ok_bind,
    pure_ok]

/-- C6 witness: the amended theorem applied to a concrete dict-record
payload and the unregistered key "bogus". -/
theorem c6_unknown_key_absent_witness :
    get_value stdEnv pShapeHr "bogus" = .ok .null :=
  c6_unknown_key_absent stdEnv pShapeHr "bogus" rfl (by decide)

/-- C7: for every payload dict whose `metrics` entry is the empty mapping,
construction succeeds and `get_value` returns Absent for every key (whatever
the rest of the payload, the environment, or the key). -/
theorem c7_empty_metrics_all_absent (env : PyEnv)
    (kvs : List (String × JVal)) (key : String)
    (h : kvs.lookup "metrics" = some (.obj [])) :
    ∃ p, mkParser (.obj kvs) = .ok p ∧ get_value env p key = .ok .null := by
  refine ⟨⟨.obj kvs, (kvs.lookup "latest_time_zone").getD .null, .null, .list []⟩,
    ?_, ?_⟩
  · simp [mkParser, pyGet_obj, pyGetD_obj, h, ok_bind, pyFirst, iterItems,
      truthy, pure_ok]
  · exact get_value_core_empty env _ key

/-- C7 witness: the theorem applied to a concrete payload with empty
metrics (and a junk time-zone entry) and a concrete key. -/
theorem c7_empty_metrics_all_absent_witness :
    ∃ p, mkParser (.obj [("metrics", .obj []), ("latest_time_zone", .num 99)]) = .ok p ∧
      get_value stdEnv p "steps" = .ok .null :=
  c7_empty_metrics_all_absent stdEnv
    [("metrics", .obj []), ("latest_time_zone", .num 99)] "steps" rfl

/-- C8: the claim says that for every payload with more than one day-key
the engine picks the first day-key and resolves every lookup against that
day's record list.  The code refutes it when the first day-key is the
falsy string `""`: on `rawEmptyDayKey` the chosen day-key is `""` but the
lookups resolve against the empty list instead of day `""`'s record list
(which holds a populated `hr` record that would yield 61). -/
theorem c8_counterexample :
    mkParser rawEmptyDayKey = .ok pEmptyDayKey ∧
    pEmptyDayKey.day_key = .str "" ∧
    pEmptyDayKey.metrics = .list [] ∧
    get_value stdEnv pEmptyDayKey "hr_last" = .ok .null ∧
    get_value_core stdEnv pEmptyDayKey.tz (.list [hrRecPop]) "hr_last" =
      .ok (.num 61) :=
  ⟨rfl, rfl, rfl, rfl, rfl⟩

/-- C8 (amended): for every payload dict whose `metrics` mapping has more
than one entry and whose first day-key is non-empty, the constructor
deterministically selects that first day-key and its record list, and every
subsequent lookup (any environment, any key) resolves against exactly that
record list. -/
theorem c8_first_day_key (kvs : List (String × JVal)) (k : String) (v : JVal)
    (rest : List (String × JVal))
    (hlk : kvs.lookup "metrics" = some (.obj ((k, v) :: rest)))
    (_hmulti : rest ≠ []) (hk : k ≠ "") :
    ∃ p, mkParser (.obj kvs) = .ok p ∧ p.day_key = .str k ∧ p.metrics = v ∧
      ∀ env key, get_value env p key = get_value_core env p.tz v key := by
  refine ⟨⟨.obj kvs, (kvs.lookup "latest_time_zone").getD .null, .str k, v⟩,
    ?_, rfl, rfl, fun env key => rfl⟩
  simp [mkParser, pyGet_obj, pyGetD_obj, hlk, ok_bind, pyFirst, iterItems,
    truthy, hk, pyGetKeyD, List.lookup, pure_ok]

/-- C8 witness: the amended theorem applied to a concrete two-day payload. -/
theorem c8_first_day_key_witness :
    ∃ p, mkParser rawTwoDays = .ok p ∧ p.day_key = .str "2025-01-01" ∧
      p.metrics = .list [hrRecPop] ∧
      ∀ env key, get_value env p key =
        get_value_core env p.tz (.list [hrRecPop]) key :=
  c8_first_day_key
    [("metrics", .obj [("2025-01-01", .list [hrRecPop]),
                       ("2025-01-02", .list [])])]
    "2025-01-01" (.list [hrRecPop]) [("2025-01-02", .list [])]
    rfl (by simp) (by simp)

/-- C9: `get_value` reads but never mutates the engine state: a successful
call leaves the state unchanged, and repeating the call on the post-call
state returns the identical value and state. -/
theorem c9_get_value_idempotent (env : PyEnv) (p p1 : UltrahumanDataParser)
    (key : String) (v : JVal)
    (h : get_value_call env p key = .ok (v, p1)) :
    p1 = p ∧ get_value_call env p1 key = .ok (v, p1) := by
  rw [get_value_call] at h
  rcases hg : get_value env p key with e | w <;> rw [hg] at h
  · exact absurd h (by simp)
  · have hv : w = v ∧ p = p1 := by
      simpa only [Except.ok.injEq, Prod.mk.injEq] using h
    obtain ⟨rfl, rfl⟩ := hv
    exact ⟨rfl, by rw [get_value_call, hg]⟩

/-- C9 witness: the theorem applied to a concrete engine state and key. -/
theorem c9_get_value_idempotent_witness :
    pZeroBoth = pZeroBoth ∧
    get_value_call stdEnv pZeroBoth "steps" = .ok (.null, pZeroBoth) :=
  c9_get_value_idempotent stdEnv pZeroBoth pZeroBoth "steps" .null rfl

/-- C10: in the legacy sensor path, `Sleep Start`/`Sleep End` treat a
present timestamp 0 as a reading and render the epoch-zero instant
(`1970-01-01T00:00:00+00:00` under UTC), while the parser engine maps the
same payload's falsy timestamps to Absent; in the sensor path only a
missing or null field yields Absent. -/
theorem c10_sensor_zero_epoch :
    sleepStartSensor ∈ SENSORS ∧ sleepEndSensor ∈ SENSORS ∧
    native_value stdEnv rawZeroBoth sleepStartSensor =
      .ok (.str "1970-01-01T00:00:00+00:00") ∧
    native_value stdEnv rawZeroBoth sleepEndSensor =
      .ok (.str "1970-01-01T00:00:00+00:00") ∧
    mkParser rawZeroBoth = .ok pZeroBoth ∧
    get_value stdEnv pZeroBoth "sleep_start" = .ok .null ∧
    get_value stdEnv pZeroBoth "sleep_end" = .ok .null ∧
    native_value stdEnv rawTsMissing sleepStartSensor = .ok .null ∧
    native_value stdEnv rawTsNull sleepStartSensor = .ok .null :=
  ⟨by decide, by decide, rfl, rfl, rfl, rfl, rfl, rfl, rfl⟩
